import Mathlib

/-!
Shallow embedding of the asym-rlpo repository (POE_ADQN episodic loss,
TargetPolicy acting, A2C training-loop plumbing, config singleton) and
verification of the frozen claims about it.

Tensors of shape (T,) are `List ℚ`; tensors of shape (T, A) are
`List (List ℚ)`.  Machine floats are modelled by exact rationals.
-/

namespace AsymRlpo

/-- An episode as used by `POE_ADQN.episodic_loss`: per-timestep actions,
observations, states, rewards and done flags. -/
structure Episode (ω σ : Type) where
  actions : List Nat
  observations : List ω
  states : List σ
  rewards : List ℚ
  dones : List Bool

/-- `tensor.gather(1, actions.unsqueeze(-1)).squeeze(-1)`: select, in each
row, the entry at that timestep's action. -/
def gatherActions (q : List (List ℚ)) (acts : List Nat) : List ℚ :=
  List.zipWith (fun row a => row.getD a 0) q acts

/-- `row.argmax(-1)`: index of the first maximal entry of a row. -/
def argmaxIdx (row : List ℚ) : Nat :=
  (List.range row.length).foldl
    (fun best i => if row.getD best 0 < row.getD i 0 then i else best) 0

/-- `tensor.roll(-1, 0)`: cyclically shift a length-T tensor so entry `t`
takes the value previously at `t+1` (and the last entry takes entry 0). -/
def rollNeg1 (l : List α) : List α := l.drop 1 ++ l.take 1

/-- `tensor.roll(1, 0)`: cyclically shift so entry `t` takes the value
previously at `t-1` (and entry 0 takes the last entry). -/
def roll1 (l : List α) : List α :=
  l.drop (l.length - 1) ++ l.take (l.length - 1)

/-- `torch.tensor(0.0).where(dones, other)`: 0 where done, else `other`. -/
def whereZero (dones : List Bool) (l : List ℚ) : List ℚ :=
  List.zipWith (fun d v => if d then (0 : ℚ) else v) dones l

/-- `F.mse_loss` with default mean reduction over the T elements. -/
def mse (pred target : List ℚ) : ℚ :=
  let sq := List.zipWith (fun x y => (x - y) ^ 2) pred target
  sq.sum / sq.length

/-- `target_qhs_values.gather(1, target_qh_values.argmax(-1).unsqueeze(-1)).squeeze(-1)`:
per timestep, the target qhs value at the action maximising the target qh row. -/
def gatherArgmax (target_qh_values target_qhs_values : List (List ℚ)) : List ℚ :=
  List.zipWith (fun tqh tqhs => tqhs.getD (argmaxIdx tqh) 0)
    target_qh_values target_qhs_values

/-- The TD target tensor `episode.rewards + discount * qhs_values_bootstrap`
as computed inside `qhs_loss`. -/
def tdTargetQhs (discount : ℚ) (ep : Episode ω σ)
    (target_qh_values target_qhs_values : List (List ℚ)) : List ℚ :=
  List.zipWith (fun r b => r + discount * b) ep.rewards
    (whereZero ep.dones (rollNeg1 (gatherArgmax target_qh_values target_qhs_values)))

/-- The TD target tensor `episode.rewards + discount * qhs_values_bootstrap`
as computed inside `qh_loss` (the source duplicates the computation verbatim). -/
def tdTargetQh (discount : ℚ) (ep : Episode ω σ)
    (target_qh_values target_qhs_values : List (List ℚ)) : List ℚ :=
  List.zipWith (fun r b => r + discount * b) ep.rewards
    (whereZero ep.dones (rollNeg1 (gatherArgmax target_qh_values target_qhs_values)))

/-- `POE_ADQN.episodic_loss.qhs_loss`: MSE between the online state-conditioned
Q values gathered at the episode's actions and the TD target. -/
def qhs_loss (discount : ℚ) (ep : Episode ω σ)
    (_qh_values qhs_values target_qh_values target_qhs_values : List (List ℚ)) : ℚ :=
  mse (gatherActions qhs_values ep.actions)
    (tdTargetQhs discount ep target_qh_values target_qhs_values)

/-- `POE_ADQN.episodic_loss.qh_loss`: MSE between the online history-conditioned
Q values gathered at the episode's actions and the TD target. -/
def qh_loss (discount : ℚ) (ep : Episode ω σ)
    (qh_values _qhs_values target_qh_values target_qhs_values : List (List ℚ)) : ℚ :=
  mse (gatherActions qh_values ep.actions)
    (tdTargetQh discount ep target_qh_values target_qhs_values)

/-- The networks in the `nn.ModuleDict` used by `POE_ADQN`, kept abstract:
feature extractors for actions, observations and states, a recurrent history
model (one cell step plus an output projection, with a zero/default hidden
state standing for torch's `hidden=None`), and the two Q heads.
`action_dim` is `action_model.dim`, the feature dimension used by
`TargetPolicy.reset` to build a zero action-feature vector. -/
structure Models (ω σ H : Type) where
  action_model : Nat → List ℚ
  action_dim : Nat
  observation_model : ω → List ℚ
  state_model : σ → List ℚ
  history_cell : H → List ℚ → H
  history_out : H → List ℚ
  h0 : H
  qh_model : List ℚ → List ℚ
  qhs_model : List ℚ → List ℚ

/-- `models.history_model(inputs, hidden)` on a whole sequence: the outputs at
every timestep together with the final hidden state. -/
def historySeq (m : Models ω σ H) (h : H) : List (List ℚ) → List (List ℚ) × H
  | [] => ([], h)
  | x :: xs =>
    let h' := m.history_cell h x
    let rest := historySeq m h' xs
    (m.history_out h' :: rest.1, rest.2)

/-- `action_features[0, :] = 0.0`: zero out the feature row of the first step. -/
def zeroFirst (rows : List (List ℚ)) : List (List ℚ) :=
  match rows with
  | [] => []
  | r :: rest => r.map (fun _ => (0 : ℚ)) :: rest

/-- The history-features part of `POE_ADQN.episodic_loss.compute_q_values`:
roll the action features forward one step, zero the first step's action
features, concatenate with observation features and run the history model. -/
def batchedHistoryFeatures (m : Models ω σ H) (actions : List Nat)
    (observations : List ω) : List (List ℚ) :=
  (historySeq m m.h0
    (List.zipWith (· ++ ·) (zeroFirst (roll1 (actions.map m.action_model)))
      (observations.map m.observation_model))).1

/-- `POE_ADQN.episodic_loss.compute_q_values`: per-timestep qh values from
history features alone, and qhs values from history and state features. -/
def compute_q_values (m : Models ω σ H) (actions : List Nat)
    (observations : List ω) (states : List σ) :
    List (List ℚ) × List (List ℚ) :=
  let history_features := batchedHistoryFeatures m actions observations
  let qh_values := history_features.map m.qh_model
  let state_features := states.map m.state_model
  let qhs_values :=
    (List.zipWith (· ++ ·) history_features state_features).map m.qhs_model
  (qh_values, qhs_values)

/-- The mutable attributes of a `TargetPolicy`: `history_features` (junk
before `reset` is called) and the RNN `hidden` state (`None` initially). -/
structure TPState (H : Type) where
  history_features : List ℚ
  hidden : Option H

/-- `TargetPolicy.__init__`: no history features yet, `hidden = None`. -/
def tpInit : TPState H := ⟨[], none⟩

/-- `TargetPolicy._update`: concatenate action and observation features, feed
them through the history model with the stored hidden state, store the new
history features and hidden state. -/
def tp_update (m : Models ω σ H) (s : TPState H)
    (action_features observation_features : List ℚ) : TPState H :=
  let h := m.history_cell (s.hidden.getD m.h0)
    (action_features ++ observation_features)
  ⟨m.history_out h, some h⟩

/-- `TargetPolicy.reset`: zero action features, observation features from the
observation model. -/
def tp_reset (m : Models ω σ H) (s : TPState H) (observation : ω) : TPState H :=
  tp_update m s (List.replicate m.action_dim 0) (m.observation_model observation)

/-- `TargetPolicy.step`: action and observation features from their models. -/
def tp_step (m : Models ω σ H) (s : TPState H) (action : Nat)
    (observation : ω) : TPState H :=
  tp_update m s (m.action_model action) (m.observation_model observation)

/-- `TargetPolicy.po_sample_action`: argmax of the qh head over the stored
history features. -/
def po_sample_action (m : Models ω σ H) (s : TPState H) : Nat :=
  argmaxIdx (m.qh_model s.history_features)

/-- One sequence of interactions fed to a policy: the first observation is
passed to `reset`, each later (action, observation) pair to `step`; the
privileged environment states are carried alongside. -/
structure Trace (ω σ : Type) where
  actions : List Nat
  observations : List ω
  states : List σ

/-- Run a `TargetPolicy` over a trace: `reset` on the first observation, then
`step` on each subsequent (action, observation) pair, then sample an action.
`none` if the trace has no observation to reset on. -/
def tpRunTrace (m : Models ω σ H) (tr : Trace ω σ) : Option Nat :=
  match tr.observations with
  | [] => none
  | o :: rest =>
    let s0 := tp_reset m tpInit o
    let sFinal := (List.zip tr.actions rest).foldl
      (fun s p => tp_step m s p.1 p.2) s0
    some (po_sample_action m sFinal)

/-- The per-timestep history features observed when running a `TargetPolicy`
sequentially over an episode: the features after `reset` on the first
observation, then after each `step` on a subsequent (action, observation)
pair. -/
def tpCollect (m : Models ω σ H) (s : TPState H) : List (Nat × ω) → List (List ℚ)
  | [] => []
  | p :: ps =>
    let s' := tp_step m s p.1 p.2
    s'.history_features :: tpCollect m s' ps

/-- Sequential history features for a whole episode. -/
def tpHistorySeq (m : Models ω σ H) (observations : List ω)
    (actions : List Nat) : List (List ℚ) :=
  match observations with
  | [] => []
  | o :: rest =>
    let s0 := tp_reset m tpInit o
    s0.history_features :: tpCollect m s0 (List.zip actions rest)

/-- `POE_ADQN.episodic_loss`: per episode, compute online and target Q values,
average the two head losses, and return the mean of the per-episode losses
(sum divided by the number of episodes). -/
def episodic_loss (m target_models : Models ω σ H) (discount : ℚ)
    (episodes : List (Episode ω σ)) : ℚ :=
  let losses := episodes.map fun episode =>
    let qv := compute_q_values m episode.actions episode.observations
      episode.states
    let tqv := compute_q_values target_models episode.actions
      episode.observations episode.states
    (qhs_loss discount episode qv.1 qv.2 tqv.1 tqv.2
      + qh_loss discount episode qv.1 qv.2 tqv.1 tqv.2) / 2
  losses.sum / losses.length

/-- Concrete model dictionary used by the witnesses. -/
def cModels : Models Unit Unit ℚ :=
  ⟨fun a => [(a : ℚ)], 1, fun _ => [1], fun _ => [2],
    fun h x => h + x.sum, fun h => [h], 0, fun f => f ++ f, fun f => f⟩

/-- Concrete episode used to witness the loss theorems. -/
def c1ep : Episode Unit Unit :=
  ⟨[0, 1], [(), ()], [(), ()], [1, 2], [false, true]⟩

/-- Concrete online qh values for the witness. -/
def c1qh : List (List ℚ) := [[0, 0], [0, 0]]

/-- Concrete online qhs values for the witness. -/
def c1qhs : List (List ℚ) := [[5, 6], [7, 8]]

/-- Concrete target qh values for the witness. -/
def c1tqh : List (List ℚ) := [[1, 2], [0, 1]]

/-- Concrete target qhs values for the witness. -/
def c1tqhs : List (List ℚ) := [[9, 10], [11, 12]]

/-- Modelled from the spec: the `Dispenser` class from
`asym_rlpo.utils.dispenser`, whose source is not included; the spec calls it a
"dispenser for periodic events".  Constructed from a next timestamp and a
period, it dispenses at a queried timestamp iff the timestamp has reached the
next timestamp, and then schedules the next dispense one period later. -/
structure Dispenser where
  next_timestamp : Nat
  period : Nat
deriving DecidableEq

/-- Modelled from the spec: querying a dispenser at a timestamp. -/
def Dispenser.dispense (d : Dispenser) (timestamp : Nat) : Bool × Dispenser :=
  if d.next_timestamp ≤ timestamp then (true, ⟨timestamp + d.period, d.period⟩)
  else (false, d)

/-- The `RunstateDispensers` named tuple; the checkpoint `TimeDispenser` is
real-time-based and kept abstract. -/
structure RunstateDispensers (CD : Type) where
  target_update : Dispenser
  datalog : Dispenser
  checkpoint : CD

/-- The configuration values read by `make_runstate` and
`update_controlflow`. -/
structure TrainConfig where
  evaluation : Bool
  evaluation_period : Nat
  save_modelseq : Bool
  max_simulation_timesteps : Nat
  num_data_logs : Nat
  target_update_function : String
  target_update_full_period : Nat

/-- The execution statistics read when gating periodic events. -/
structure XStats where
  epoch : Nat
  simulation_timesteps : Nat

/-- The `Controlflow` dataclass. -/
structure Controlflow where
  log_data : Bool
  update_target_parameters : Bool
  evaluate : Bool
  save_modelseq : Bool

/-- `update_controlflow`: dispense the datalog and target-update dispensers at
the current simulation timesteps, check the evaluation period, and fill the
controlflow flags.  Dispenser mutation becomes explicit state passing. -/
def update_controlflow (cfg : TrainConfig) (dispensers : RunstateDispensers CD)
    (xstats : XStats) : Controlflow × RunstateDispensers CD :=
  let log_data := dispensers.datalog.dispense xstats.simulation_timesteps
  let update_target := dispensers.target_update.dispense xstats.simulation_timesteps
  let evaluate := xstats.epoch % cfg.evaluation_period == 0
  (⟨log_data.1, update_target.1, evaluate && cfg.evaluation,
      log_data.1 && cfg.save_modelseq⟩,
    ⟨update_target.2, log_data.2, dispensers.checkpoint⟩)

/-- `make_runstate.make_target_update_dispenser`: `Dispenser(0, full_period)`
for 'full' updates, `Dispenser(0, 0)` for 'polyak' updates; the
`assert False` branch becomes `none`. -/
def make_target_update_dispenser (cfg : TrainConfig) : Option Dispenser :=
  if cfg.target_update_function = "full" then
    some ⟨0, cfg.target_update_full_period⟩
  else if cfg.target_update_function = "polyak" then some ⟨0, 0⟩
  else none

/-- The `RunstateDispensers` built inside `make_runstate`: the target-update
dispenser from its helper and the datalog dispenser with period
`max_simulation_timesteps // num_data_logs`. -/
def make_dispensers (cfg : TrainConfig) (checkpoint_dispenser : CD) :
    Option (RunstateDispensers CD) :=
  (make_target_update_dispenser cfg).map fun tu =>
    ⟨tu, ⟨0, cfg.max_simulation_timesteps / cfg.num_data_logs⟩,
      checkpoint_dispenser⟩

/-- The A2C algorithm object, reduced to what checkpointing touches: its
state dict (`algo.state_dict()` / `algo.load_state_dict`). -/
structure Algo (SD : Type) where
  state_dict : SD

/-- The `RunstateAverages` named tuple. -/
structure RunstateAverages (IA WA : Type) where
  target : IA
  behavior : IA
  behavior100 : WA

/-- The `Runstate` named tuple of `main_a2c.py`; component types are abstract
parameters. -/
structure Runstate (E SD DL TM XS IA WA CD TU EF DV NS QE : Type) where
  env : E
  algo : Algo SD
  datalogger : DL
  timer : TM
  xstats : XS
  averages : RunstateAverages IA WA
  dispensers : RunstateDispensers CD
  target_updater : TU
  episodes_factories : EF
  device : DV
  negentropy_schedule : NS
  q_estimator : QE

/-- The `CheckpointMetadata` named tuple: config dict and wandb run id. -/
structure CheckpointMetadata (CFG WID : Type) where
  config : CFG
  wandb_run_id : WID

/-- The `CheckpointData` named tuple. -/
structure CheckpointData (SD DL TM XS IA WA CD : Type) where
  algo_state_dict : SD
  datalogger : DL
  timer : TM
  xstats : XS
  averages : RunstateAverages IA WA
  dispensers : RunstateDispensers CD

/-- The `Checkpoint` named tuple. -/
structure Checkpoint (CFG WID SD DL TM XS IA WA CD : Type) where
  metadata : CheckpointMetadata CFG WID
  data : CheckpointData SD DL TM XS IA WA CD

/-- `make_checkpoint`: store the config dict and wandb run id as metadata and
the six data components taken from the runstate. -/
def make_checkpoint (config_dict : CFG) (wandb_run_id : WID)
    (runstate : Runstate E SD DL TM XS IA WA CD TU EF DV NS QE) :
    Checkpoint CFG WID SD DL TM XS IA WA CD :=
  ⟨⟨config_dict, wandb_run_id⟩,
    ⟨runstate.algo.state_dict, runstate.datalogger, runstate.timer,
      runstate.xstats, runstate.averages, runstate.dispensers⟩⟩

/-- `make_runstate`: `fresh` stands for the runstate whose twelve components
are freshly constructed from the config (env, algo, loggers, schedules, ...,
whose constructors live outside the embedded sources); when a checkpoint is
given, its six data components override the fresh ones, the algorithm state
dict through `algo.load_state_dict`. -/
def make_runstate (fresh : Runstate E SD DL TM XS IA WA CD TU EF DV NS QE)
    (checkpoint : Option (Checkpoint CFG WID SD DL TM XS IA WA CD)) :
    Runstate E SD DL TM XS IA WA CD TU EF DV NS QE :=
  match checkpoint with
  | none => fresh
  | some cp =>
    { fresh with
      algo := { fresh.algo with state_dict := cp.data.algo_state_dict }
      datalogger := cp.data.datalogger
      timer := cp.data.timer
      xstats := cp.data.xstats
      averages := cp.data.averages
      dispensers := cp.data.dispensers }

/-- The `LossDict` produced per episode and per key by the A2C losses. -/
structure LossDict where
  policy : ℚ
  negentropy : ℚ
  critic : ℚ

/-- Modelled from the spec: `average_losses` from `asym_rlpo.utils.aggregate`,
whose source is not included; per the spec "the per-key losses are the average
over the sampled episodes of the losses computed per episode", i.e. the
per-key arithmetic mean. -/
def average_losses (ds : List LossDict) : LossDict :=
  ⟨(ds.map LossDict.policy).sum / ds.length,
    (ds.map LossDict.negentropy).sum / ds.length,
    (ds.map LossDict.critic).sum / ds.length⟩

/-- The objectives dict built by `run_training`. -/
structure Objectives where
  actor : ℚ
  critic : ℚ

/-- The loss/objective computation of `run_training`: per-episode losses from
the algorithm's `compute_losses` (abstract) at the training discount, averaged
per key; the actor objective adds the negentropy loss weighted by the
negentropy schedule at the current simulation timesteps; the critic objective
is the critic loss alone.  Returns (objectives, losses, negentropy weight). -/
def run_training_objectives (compute_losses : Ep → ℚ → QE → LossDict)
    (negentropy_schedule : Nat → ℚ) (q_estimator : QE)
    (training_discount : ℚ) (simulation_timesteps : Nat)
    (episodes : List Ep) : Objectives × LossDict × ℚ :=
  let losses := average_losses
    (episodes.map fun episode =>
      compute_losses episode training_discount q_estimator)
  let negentropy_weight := negentropy_schedule simulation_timesteps
  (⟨losses.policy + negentropy_weight * losses.negentropy, losses.critic⟩,
    losses, negentropy_weight)

/-- `re.fullmatch(pre ++ r'\d+', s)` for a literal prefix `pre`: the id (a
character list) starts with `pre` and the rest is one or more digits. -/
def matchesEnvId (pre : List Char) (s : List Char) : Bool :=
  pre.isPrefixOf s && !(s.drop pre.length).isEmpty
    && (s.drop pre.length).all Char.isDigit

/-- The literal prefix of the `CartPole-v\\d+` pattern. -/
def cartpolePre : List Char := "CartPole-v".toList

/-- The literal prefix of the `Acrobot-v\\d+` pattern. -/
def acrobotPre : List Char := "Acrobot-v".toList

/-- The literal prefix of the `LunarLander-v\\d+` pattern. -/
def lunarlanderPre : List Char := "LunarLander-v".toList

/-- The keys of the `nn.ModuleDict` returned by `make_models_box2d`. -/
def box2d_model_keys : List String :=
  ["action_model", "observation_model", "state_model", "history_model",
    "qh_model", "qhs_model"]

/-- `POE_ADQN.make_models`, at the level of which model dictionary is built:
the box2d dictionary keys for CartPole/Acrobot/LunarLander ids, `none` for the
`NotImplementedError` branch. -/
def make_models (env_spec_id : List Char) : Option (List String) :=
  if matchesEnvId cartpolePre env_spec_id
      || matchesEnvId acrobotPre env_spec_id
      || matchesEnvId lunarlanderPre env_spec_id
  then some box2d_model_keys
  else none

/-- The specification-side reading of `re.fullmatch(pre ++ r'\d+', s)`: the id
is the prefix followed by a non-empty run of digits. -/
def FullmatchDigits (pre : List Char) (s : List Char) : Prop :=
  ∃ t, s = pre ++ t ∧ t ≠ [] ∧ ∀ c ∈ t, c.isDigit

/-- A Python dict with string keys, as an association list. -/
abbrev Dict (V : Type) := List (String × V)

/-- `d[k] = v` on a Python dict: replace the first binding of `k`, else
append a new binding. -/
def dictInsert (d : Dict V) (k : String) (v : V) : Dict V :=
  match d with
  | [] => [(k, v)]
  | (k', v') :: rest =>
    if k' = k then (k, v) :: rest else (k', v') :: dictInsert rest k v

/-- The state of the `asym_rlpo.utils.config` module: a heap of dict objects
(so that aliasing and copying are observable) and the module-level `_config`
global, holding the address of the singleton's dict once created. -/
structure ConfigModule (V : Type) where
  heap : List (Dict V)
  config_global : Option Nat

/-- The dict object stored at address `a`. -/
def readDict (s : ConfigModule V) (a : Nat) : Dict V := s.heap.getD a []

/-- `get_config()`: return the module-level singleton, creating it (with an
empty dict) on first call.  The returned `Config` is the address of its
dict. -/
def get_config (s : ConfigModule V) : Nat × ConfigModule V :=
  match s.config_global with
  | some c => (c, s)
  | none => (s.heap.length, ⟨s.heap ++ [[]], some s.heap.length⟩)

/-- `Config._as_dict()`: return `self._config.copy()`, i.e. a freshly
allocated dict object with the same contents. -/
def as_dict (s : ConfigModule V) (c : Nat) : Nat × ConfigModule V :=
  (s.heap.length, ⟨s.heap ++ [readDict s c], s.config_global⟩)

/-- Mutate the dict object at address `a`: `d[k] = v`. -/
def dict_setitem (s : ConfigModule V) (a : Nat) (k : String) (v : V) :
    ConfigModule V :=
  ⟨s.heap.set a (dictInsert (readDict s a) k v), s.config_global⟩

/-- `Config._get(name)` / `Config.__getattr__`: read a value through the
`Config` object. -/
def config_get (s : ConfigModule V) (c : Nat) (k : String) : Option V :=
  ((readDict s c).find? (fun p => p.1 == k)).map Prod.snd

/-- Concrete training configuration used by the C7 witness. -/
def c7cfg : TrainConfig := ⟨true, 10, false, 2000000, 200, "full", 10000⟩

/-- Concrete dispensers used by the C7 witness. -/
def c7disp : RunstateDispensers Unit := ⟨⟨0, 10000⟩, ⟨0, 10000⟩, ()⟩

/-- Concrete execution statistics used by the C7 witness. -/
def c7xs : XStats := ⟨20, 40⟩

lemma length_rollNeg1 (l : List α) : (rollNeg1 l).length = l.length := by
  cases l <;> simp [rollNeg1]

lemma rollNeg1_getElem? (l : List α) (t : Nat) (h : t + 1 < l.length) :
    (rollNeg1 l)[t]? = l[t + 1]? := by
  have h1 : t < (l.drop 1).length := by
    rw [List.length_drop]; omega
  rw [rollNeg1, List.getElem?_append, if_pos h1, List.getElem?_drop, Nat.add_comm]

lemma zipWith_getElem?_of_lt (f : α → β → γ) (l1 : List α) (l2 : List β) (i : Nat)
    (h1 : i < l1.length) (h2 : i < l2.length) :
    (List.zipWith f l1 l2)[i]? = some (f l1[i] l2[i]) := by
  have h : i < (List.zipWith f l1 l2).length := by
    rw [List.length_zipWith]; exact lt_min h1 h2
  rw [List.getElem?_eq_getElem h, List.getElem_zipWith]

/-- Claim C4: inside an episodic loss, the target tensor computed by `qh_loss`
equals, element for element, the one computed by `qhs_loss` (both gather the
target qhs values at the argmax of the target qh values, roll back one step and
zero done steps), and the two losses differ only in which online head's
gathered values are regressed against that common target. -/
theorem c4_dual_head_common_target (d : ℚ) (ep : Episode ω σ)
    (qh_values qhs_values target_qh_values target_qhs_values : List (List ℚ)) :
    tdTargetQh d ep target_qh_values target_qhs_values
      = tdTargetQhs d ep target_qh_values target_qhs_values
    ∧ (∀ t : Nat, (tdTargetQh d ep target_qh_values target_qhs_values)[t]?
        = (tdTargetQhs d ep target_qh_values target_qhs_values)[t]?)
    ∧ qh_loss d ep qh_values qhs_values target_qh_values target_qhs_values
        = mse (gatherActions qh_values ep.actions)
            (tdTargetQh d ep target_qh_values target_qhs_values)
    ∧ qhs_loss d ep qh_values qhs_values target_qh_values target_qhs_values
        = mse (gatherActions qhs_values ep.actions)
            (tdTargetQhs d ep target_qh_values target_qhs_values) :=
  ⟨rfl, fun _ => rfl, rfl, rfl⟩

/-- Claim C1: for an episode whose final done flag is set, `qhs_loss` is the
MSE between the online qhs values gathered at the episode's actions and the
TD target, whose entry at each timestep `t` is
`rewards[t] + discount * bootstrap[t]`, where `bootstrap[t]` is `0` on done
steps and otherwise the target network's qhs value at `t+1` at the action
maximising the target qh row at `t+1`. -/
theorem c1_qhs_loss_td_target (d : ℚ) (ep : Episode ω σ)
    (qh_values qhs_values target_qh_values target_qhs_values : List (List ℚ))
    (hr : ep.rewards.length = ep.dones.length)
    (hq : target_qh_values.length = ep.dones.length)
    (hqs : target_qhs_values.length = ep.dones.length)
    (hlast : ep.dones.getLast? = some true) :
    qhs_loss d ep qh_values qhs_values target_qh_values target_qhs_values
      = mse (gatherActions qhs_values ep.actions)
          (tdTargetQhs d ep target_qh_values target_qhs_values)
    ∧ ∀ t, t < ep.dones.length →
        (tdTargetQhs d ep target_qh_values target_qhs_values)[t]?
          = some (ep.rewards.getD t 0
              + d * (if ep.dones.getD t false then 0
                  else (target_qhs_values.getD (t + 1) []).getD
                    (argmaxIdx (target_qh_values.getD (t + 1) [])) 0)) := by
  refine ⟨rfl, fun t ht => ?_⟩
  have hga : (gatherArgmax target_qh_values target_qhs_values).length
      = ep.dones.length := by
    simp [gatherArgmax, List.length_zipWith, hq, hqs]
  have hroll : (rollNeg1 (gatherArgmax target_qh_values target_qhs_values)).length
      = ep.dones.length := by
    rw [length_rollNeg1, hga]
  have hW : t < (whereZero ep.dones
      (rollNeg1 (gatherArgmax target_qh_values target_qhs_values))).length := by
    simp only [whereZero, List.length_zipWith, hroll]
    omega
  simp only [tdTargetQhs]
  rw [zipWith_getElem?_of_lt _ _ _ t (by omega) hW]
  simp only [whereZero, List.getElem_zipWith]
  rw [List.getD_eq_getElem ep.rewards 0 (show t < ep.rewards.length by omega)]
  by_cases hd : ep.dones[t] = true
  · rw [List.getD_eq_getElem ep.dones false (show t < ep.dones.length from ht), hd]
    simp
  · have hd' : ep.dones[t] = false := by
      cases h : ep.dones[t] <;> simp_all
    rw [List.getD_eq_getElem ep.dones false (show t < ep.dones.length from ht), hd']
    by_cases hT : t + 1 < ep.dones.length
    · have h1 : (rollNeg1 (gatherArgmax target_qh_values target_qhs_values))[t]?
          = (gatherArgmax target_qh_values target_qhs_values)[t + 1]? :=
        rollNeg1_getElem? _ t (by omega)
      rw [List.getElem?_eq_getElem (show t < _ by omega)] at h1
      simp only [gatherArgmax] at h1
      rw [zipWith_getElem?_of_lt _ _ _ (t + 1) (by omega) (by omega)] at h1
      rw [Option.some_inj] at h1
      simp only [gatherArgmax]
      rw [h1,
        List.getD_eq_getElem target_qhs_values [] (show t + 1 < _ by omega),
        List.getD_eq_getElem target_qh_values [] (show t + 1 < _ by omega)]
    · exfalso
      have hlt : ep.dones[t]? = some true := by
        rw [← hlast, List.getLast?_eq_getElem?]
        congr 1
        omega
      rw [List.getElem?_eq_getElem ht, hd'] at hlt
      exact Bool.false_ne_true (Option.some_inj.mp hlt)

/-- Witness for C1 at a concrete two-step episode whose final done flag is
set. -/
theorem c1_qhs_loss_td_target_witness :
    (c1ep.rewards.length = c1ep.dones.length
      ∧ c1tqh.length = c1ep.dones.length
      ∧ c1tqhs.length = c1ep.dones.length
      ∧ c1ep.dones.getLast? = some true)
    ∧ (qhs_loss (1 / 2) c1ep c1qh c1qhs c1tqh c1tqhs
        = mse (gatherActions c1qhs c1ep.actions)
            (tdTargetQhs (1 / 2) c1ep c1tqh c1tqhs)
      ∧ ∀ t, t < c1ep.dones.length →
          (tdTargetQhs (1 / 2) c1ep c1tqh c1tqhs)[t]?
            = some (c1ep.rewards.getD t 0
                + (1 / 2) * (if c1ep.dones.getD t false then 0
                    else (c1tqhs.getD (t + 1) []).getD
                      (argmaxIdx (c1tqh.getD (t + 1) [])) 0))) :=
  ⟨⟨by decide, by decide, by decide, by decide⟩,
    c1_qhs_loss_td_target (1 / 2) c1ep c1qh c1qhs c1tqh c1tqhs
      (by decide) (by decide) (by decide) (by decide)⟩

/-- Claim C2: the acting policy's choice never depends on the privileged
environment state: two `TargetPolicy` runs over traces with identical actions
and observations but arbitrary different states sample the same action. -/
theorem c2_policy_state_noninterference (m : Models ω σ H)
    (tr1 tr2 : Trace ω σ) (ha : tr1.actions = tr2.actions)
    (ho : tr1.observations = tr2.observations) :
    tpRunTrace m tr1 = tpRunTrace m tr2 := by
  cases tr1
  cases tr2
  simp only [Trace.mk.injEq] at *
  simp only [tpRunTrace, ha, ho]

/-- Witness for C2: two concrete traces with equal actions and observations
but different states. -/
theorem c2_policy_state_noninterference_witness :
    (Trace.actions ⟨[0], [7, 8], [1, 2]⟩ = Trace.actions ⟨[0], [7, 8], [5, 9]⟩
      ∧ Trace.observations (⟨[0], [7, 8], [1, 2]⟩ : Trace Nat Nat)
        = Trace.observations ⟨[0], [7, 8], [5, 9]⟩)
    ∧ tpRunTrace ⟨fun a => [(a : ℚ)], 1, fun o => [(o : ℚ)], fun s => [(s : ℚ)],
          fun h x => h + x.sum, fun h => [h], 0, fun f => f ++ f, fun f => f⟩
        ⟨[0], [7, 8], [1, 2]⟩
      = tpRunTrace ⟨fun a => [(a : ℚ)], 1, fun o => [(o : ℚ)], fun s => [(s : ℚ)],
          fun h x => h + x.sum, fun h => [h], 0, fun f => f ++ f, fun f => f⟩
        ⟨[0], [7, 8], [5, 9]⟩ :=
  ⟨⟨rfl, rfl⟩,
    c2_policy_state_noninterference _ _ _ rfl rfl⟩

lemma drop_length_sub_one_eq (L : List α) (hL : L ≠ []) :
    L.drop (L.length - 1) = [L.getLast hL] := by
  induction L with
  | nil => exact absurd rfl hL
  | cons x xs ih =>
    cases xs with
    | nil => simp
    | cons y ys =>
      have hlen : (x :: y :: ys : List α).length - 1
          = ((y :: ys : List α).length - 1) + 1 := by simp
      rw [hlen, List.drop_succ_cons, ih (by simp),
        List.getLast_cons (by simp : (y :: ys : List α) ≠ [])]

lemma roll1_eq (L : List α) (hL : L ≠ []) :
    roll1 L = L.getLast hL :: L.take (L.length - 1) := by
  rw [roll1, drop_length_sub_one_eq L hL]
  rfl

lemma zipWith_take_left (f : α → β → γ) (l1 : List α) (l2 : List β) (k : Nat)
    (h : l2.length ≤ k) :
    List.zipWith f (l1.take k) l2 = List.zipWith f l1 l2 := by
  induction l1 generalizing l2 k with
  | nil => simp
  | cons x xs ih =>
    cases l2 with
    | nil => simp
    | cons y ys =>
      cases k with
      | zero => simp at h
      | succ k => simp [ih ys k (by simpa using h)]

lemma map_zip_eq_zipWith (f : α → β → γ) :
    ∀ (l1 : List α) (l2 : List β),
      (List.zip l1 l2).map (fun p => f p.1 p.2) = List.zipWith f l1 l2
  | [], _ => by simp
  | _ :: _, [] => by simp
  | a :: as, b :: bs => by
    simp only [List.zip_cons_cons, List.map_cons, List.zipWith_cons_cons]
    rw [map_zip_eq_zipWith f as bs]

lemma tpCollect_eq_historySeq (m : Models ω σ H) :
    ∀ (pairs : List (Nat × ω)) (s : TPState H) (h : H), s.hidden = some h →
      tpCollect m s pairs
        = (historySeq m h
            (pairs.map fun p => m.action_model p.1 ++ m.observation_model p.2)).1
  | [], _, _, _ => by simp [tpCollect, historySeq]
  | p :: ps, s, h, hs => by
    simp only [tpCollect, tp_step, tp_update, List.map_cons, historySeq, hs,
      Option.getD_some]
    rw [tpCollect_eq_historySeq m ps _ _ rfl]

/-- Claim C8: the batched history computation of `compute_q_values` (roll the
action features forward one step, zero the first step's features, feed the
concatenated action-observation features through the history model) produces,
step by step, the same history features as running `TargetPolicy`
sequentially: `reset` with zero action features on the first observation, then
`step` on each subsequent (action, observation) pair. -/
theorem c8_batched_history_eq_sequential (m : Models ω σ H)
    (hwf : ∀ a, (m.action_model a).length = m.action_dim)
    (ep : Episode ω σ) (hne : ep.observations ≠ [])
    (hlen : ep.actions.length = ep.observations.length) :
    batchedHistoryFeatures m ep.actions ep.observations
      = tpHistorySeq m ep.observations ep.actions := by
  obtain ⟨o, rest, ho⟩ : ∃ o rest, ep.observations = o :: rest := by
    cases h : ep.observations with
    | nil => exact absurd h hne
    | cons o rest => exact ⟨o, rest, rfl⟩
  obtain ⟨a, as, ha⟩ : ∃ a as, ep.actions = a :: as := by
    cases h : ep.actions with
    | nil => rw [h, ho] at hlen; simp at hlen
    | cons a as => exact ⟨a, as, rfl⟩
  rw [ho, ha] at hlen ⊢
  simp only [List.length_cons] at hlen
  have hmapne : List.map m.action_model (a :: as) ≠ [] := by simp
  have hzf : zeroFirst (roll1 (List.map m.action_model (a :: as)))
      = List.replicate m.action_dim 0
        :: (List.map m.action_model (a :: as)).take
            ((List.map m.action_model (a :: as)).length - 1) := by
    rw [roll1_eq _ hmapne]
    simp only [zeroFirst]
    congr 1
    rw [List.map_const', List.getLast_map, hwf]
  simp only [batchedHistoryFeatures]
  rw [hzf]
  simp only [List.length_map, List.length_cons, Nat.add_sub_cancel,
    List.map_cons, List.zipWith_cons_cons]
  rw [zipWith_take_left (· ++ ·) (m.action_model a :: List.map m.action_model as)
    (List.map m.observation_model rest) as.length
    (by simp only [List.length_map]; omega)]
  simp only [historySeq, tpHistorySeq, tp_reset, tp_update, tpInit,
    Option.getD_none]
  rw [tpCollect_eq_historySeq m (List.zip (a :: as) rest) _ _ rfl,
    map_zip_eq_zipWith
      (fun x y => m.action_model x ++ m.observation_model y) (a :: as) rest,
    ← List.map_cons, List.zipWith_map_left, List.zipWith_map_right]

/-- Witness for C8: a concrete model dictionary and concrete two-step
episode. -/
theorem c8_batched_history_eq_sequential_witness :
    ((∀ a, (cModels.action_model a).length = cModels.action_dim)
      ∧ c1ep.observations ≠ []
      ∧ c1ep.actions.length = c1ep.observations.length)
    ∧ batchedHistoryFeatures cModels c1ep.actions c1ep.observations
        = tpHistorySeq cModels c1ep.observations c1ep.actions :=
  ⟨⟨fun _ => rfl, by decide, by decide⟩,
    c8_batched_history_eq_sequential cModels (fun _ => rfl) c1ep
      (by decide) (by decide)⟩

/-- Claim C3: for a non-empty batch, `episodic_loss` is the sum over episodes
of `(qhs_loss + qh_loss) / 2` divided by the number of episodes (not by the
total number of timesteps). -/
theorem c3_episodic_loss_mean (m mt : Models ω σ H) (d : ℚ)
    (episodes : List (Episode ω σ)) (h : episodes ≠ []) :
    episodic_loss m mt d episodes
      = (episodes.map fun ep =>
          (qhs_loss d ep
              (compute_q_values m ep.actions ep.observations ep.states).1
              (compute_q_values m ep.actions ep.observations ep.states).2
              (compute_q_values mt ep.actions ep.observations ep.states).1
              (compute_q_values mt ep.actions ep.observations ep.states).2
            + qh_loss d ep
              (compute_q_values m ep.actions ep.observations ep.states).1
              (compute_q_values m ep.actions ep.observations ep.states).2
              (compute_q_values mt ep.actions ep.observations ep.states).1
              (compute_q_values mt ep.actions ep.observations ep.states).2)
            / 2).sum
        / episodes.length := by
  simp only [episodic_loss, List.length_map]

/-- Witness for C3: the singleton batch holding the concrete episode. -/
theorem c3_episodic_loss_mean_witness :
    (([c1ep] : List (Episode Unit Unit)) ≠ [])
    ∧ episodic_loss cModels cModels (9 / 10) [c1ep]
        = (([c1ep] : List (Episode Unit Unit)).map fun ep =>
            (qhs_loss (9 / 10) ep
                (compute_q_values cModels ep.actions ep.observations ep.states).1
                (compute_q_values cModels ep.actions ep.observations ep.states).2
                (compute_q_values cModels ep.actions ep.observations ep.states).1
                (compute_q_values cModels ep.actions ep.observations ep.states).2
              + qh_loss (9 / 10) ep
                (compute_q_values cModels ep.actions ep.observations ep.states).1
                (compute_q_values cModels ep.actions ep.observations ep.states).2
                (compute_q_values cModels ep.actions ep.observations ep.states).1
                (compute_q_values cModels ep.actions ep.observations ep.states).2)
              / 2).sum
          / ([c1ep] : List (Episode Unit Unit)).length :=
  ⟨by simp,
    c3_episodic_loss_mean cModels cModels (9 / 10) [c1ep] (by simp)⟩

/-- Claim C5: `make_checkpoint` stores exactly the algorithm state dict,
datalogger, timer, xstats, averages and dispensers (plus config dict and
wandb run id as metadata), and `make_runstate` applied to that checkpoint
yields a runstate whose corresponding six components equal the original
runstate's, overriding the freshly constructed ones. -/
theorem c5_checkpoint_resume_roundtrip
    (fresh rs : Runstate E SD DL TM XS' IA WA CD TU EF DV NS QE)
    (cfg : CFG) (wid : WID) :
    (make_checkpoint cfg wid rs).metadata
        = CheckpointMetadata.mk cfg wid
    ∧ (make_checkpoint cfg wid rs).data
        = CheckpointData.mk rs.algo.state_dict rs.datalogger rs.timer
            rs.xstats rs.averages rs.dispensers
    ∧ (make_runstate fresh (some (make_checkpoint cfg wid rs))).algo.state_dict
        = rs.algo.state_dict
    ∧ (make_runstate fresh (some (make_checkpoint cfg wid rs))).datalogger
        = rs.datalogger
    ∧ (make_runstate fresh (some (make_checkpoint cfg wid rs))).timer
        = rs.timer
    ∧ (make_runstate fresh (some (make_checkpoint cfg wid rs))).xstats
        = rs.xstats
    ∧ (make_runstate fresh (some (make_checkpoint cfg wid rs))).averages
        = rs.averages
    ∧ (make_runstate fresh (some (make_checkpoint cfg wid rs))).dispensers
        = rs.dispensers :=
  ⟨rfl, rfl, rfl, rfl, rfl, rfl, rfl, rfl⟩

/-- Claim C6: in a training step, the actor objective is
`losses.policy + w * losses.negentropy` with `w` the negentropy schedule at
the current simulation timesteps, the critic objective is `losses.critic`
alone, and the per-key losses are the per-episode losses (at the training
discount) averaged over the sampled episodes. -/
theorem c6_training_objectives (compute_losses : Ep → ℚ → QE → LossDict)
    (negentropy_schedule : Nat → ℚ) (q_estimator : QE)
    (training_discount : ℚ) (simulation_timesteps : Nat)
    (episodes : List Ep) (h : episodes ≠ []) :
    (run_training_objectives compute_losses negentropy_schedule q_estimator
        training_discount simulation_timesteps episodes).1.actor
      = (run_training_objectives compute_losses negentropy_schedule q_estimator
          training_discount simulation_timesteps episodes).2.1.policy
        + negentropy_schedule simulation_timesteps
          * (run_training_objectives compute_losses negentropy_schedule
              q_estimator training_discount simulation_timesteps
              episodes).2.1.negentropy
    ∧ (run_training_objectives compute_losses negentropy_schedule q_estimator
        training_discount simulation_timesteps episodes).1.critic
      = (run_training_objectives compute_losses negentropy_schedule q_estimator
          training_discount simulation_timesteps episodes).2.1.critic
    ∧ (run_training_objectives compute_losses negentropy_schedule q_estimator
        training_discount simulation_timesteps episodes).2.1
      = LossDict.mk
          ((episodes.map fun ep =>
            (compute_losses ep training_discount q_estimator).policy).sum
            / episodes.length)
          ((episodes.map fun ep =>
            (compute_losses ep training_discount q_estimator).negentropy).sum
            / episodes.length)
          ((episodes.map fun ep =>
            (compute_losses ep training_discount q_estimator).critic).sum
            / episodes.length) := by
  refine ⟨rfl, rfl, ?_⟩
  simp [run_training_objectives, average_losses, List.map_map,
    Function.comp_def]

/-- Witness for C6 on a singleton episode batch. -/
theorem c6_training_objectives_witness :
    (([()] : List Unit) ≠ [])
    ∧ ((run_training_objectives (fun _ _ _ => LossDict.mk 1 2 3)
          (fun n => (n : ℚ)) () (99 / 100) 5 [()]).1.actor
        = (run_training_objectives (fun _ _ _ => LossDict.mk 1 2 3)
            (fun n => (n : ℚ)) () (99 / 100) 5 [()]).2.1.policy
          + (fun n => (n : ℚ)) 5
            * (run_training_objectives (fun _ _ _ => LossDict.mk 1 2 3)
                (fun n => (n : ℚ)) () (99 / 100) 5 [()]).2.1.negentropy
      ∧ (run_training_objectives (fun _ _ _ => LossDict.mk 1 2 3)
          (fun n => (n : ℚ)) () (99 / 100) 5 [()]).1.critic
        = (run_training_objectives (fun _ _ _ => LossDict.mk 1 2 3)
            (fun n => (n : ℚ)) () (99 / 100) 5 [()]).2.1.critic
      ∧ (run_training_objectives (fun _ _ _ => LossDict.mk 1 2 3)
          (fun n => (n : ℚ)) () (99 / 100) 5 [()]).2.1
        = LossDict.mk
            ((([()] : List Unit).map fun ep =>
              ((fun _ _ _ => LossDict.mk 1 2 3) ep (99 / 100) ()).policy).sum
              / ([()] : List Unit).length)
            ((([()] : List Unit).map fun ep =>
              ((fun _ _ _ => LossDict.mk 1 2 3) ep (99 / 100) ()).negentropy).sum
              / ([()] : List Unit).length)
            ((([()] : List Unit).map fun ep =>
              ((fun _ _ _ => LossDict.mk 1 2 3) ep (99 / 100) ()).critic).sum
              / ([()] : List Unit).length)) :=
  ⟨by simp,
    c6_training_objectives (fun _ _ _ => LossDict.mk 1 2 3)
      (fun n => (n : ℚ)) () (99 / 100) 5 [()] (by simp)⟩

/-- Claim C7: per epoch, evaluation runs exactly when the evaluation flag is
set and the epoch is divisible by `evaluation_period`; data logging and
target updates occur exactly when their dispensers dispense at the current
simulation timesteps; the datalog dispenser is built with period
`max_simulation_timesteps // num_data_logs` and the target-update dispenser
with period `target_update_full_period` for 'full' and `0` for 'polyak'
updates. -/
theorem c7_periodic_event_gating (cfg : TrainConfig)
    (dispensers : RunstateDispensers CD) (xstats : XStats) (cd : CD)
    (hp : 0 < cfg.evaluation_period) :
    ((update_controlflow cfg dispensers xstats).1.log_data
        = (dispensers.datalog.dispense xstats.simulation_timesteps).1
      ∧ (update_controlflow cfg dispensers xstats).1.update_target_parameters
        = (dispensers.target_update.dispense xstats.simulation_timesteps).1
      ∧ ((update_controlflow cfg dispensers xstats).1.evaluate = true
          ↔ cfg.evaluation = true ∧ cfg.evaluation_period ∣ xstats.epoch))
    ∧ (cfg.target_update_function = "full" →
        make_target_update_dispenser cfg
          = some ⟨0, cfg.target_update_full_period⟩)
    ∧ (cfg.target_update_function = "polyak" →
        make_target_update_dispenser cfg = some ⟨0, 0⟩)
    ∧ (make_dispensers cfg cd).map RunstateDispensers.datalog
        = (make_target_update_dispenser cfg).map
            (fun _ => (⟨0, cfg.max_simulation_timesteps / cfg.num_data_logs⟩
              : Dispenser)) := by
  refine ⟨⟨rfl, rfl, ?_⟩, fun hf => ?_, fun hf => ?_, ?_⟩
  · simp only [update_controlflow, Bool.and_eq_true, beq_iff_eq,
      Nat.dvd_iff_mod_eq_zero]
    tauto
  · simp [make_target_update_dispenser, hf]
  · by_cases hfull : cfg.target_update_function = "full"
    · rw [hf] at hfull
      exact absurd hfull (by decide)
    · simp [make_target_update_dispenser, hfull, hf]
  · simp only [make_dispensers, Option.map_map]
    cases make_target_update_dispenser cfg <;> simp

/-- Witness for C7 at a concrete configuration with 'full' target updates. -/
theorem c7_periodic_event_gating_witness :
    0 < c7cfg.evaluation_period
    ∧ (((update_controlflow c7cfg c7disp c7xs).1.log_data
          = (c7disp.datalog.dispense c7xs.simulation_timesteps).1
        ∧ (update_controlflow c7cfg c7disp c7xs).1.update_target_parameters
          = (c7disp.target_update.dispense c7xs.simulation_timesteps).1
        ∧ ((update_controlflow c7cfg c7disp c7xs).1.evaluate = true
            ↔ c7cfg.evaluation = true ∧ c7cfg.evaluation_period ∣ c7xs.epoch))
      ∧ (c7cfg.target_update_function = "full" →
          make_target_update_dispenser c7cfg
            = some ⟨0, c7cfg.target_update_full_period⟩)
      ∧ (c7cfg.target_update_function = "polyak" →
          make_target_update_dispenser c7cfg = some ⟨0, 0⟩)
      ∧ (make_dispensers c7cfg ()).map RunstateDispensers.datalog
          = (make_target_update_dispenser c7cfg).map
              (fun _ => (⟨0, c7cfg.max_simulation_timesteps
                / c7cfg.num_data_logs⟩ : Dispenser))) :=
  ⟨by decide, c7_periodic_event_gating c7cfg c7disp c7xs () (by decide)⟩

lemma matchesEnvId_iff (pre s : List Char) :
    matchesEnvId pre s = true ↔ FullmatchDigits pre s := by
  simp only [matchesEnvId, FullmatchDigits, Bool.and_eq_true,
    List.isPrefixOf_iff_prefix, List.all_eq_true, Bool.not_eq_true',
    List.isEmpty_eq_false]
  constructor
  · rintro ⟨⟨⟨t, rfl⟩, hne⟩, hall⟩
    rw [List.drop_left] at hne hall
    exact ⟨t, rfl, hne, hall⟩
  · rintro ⟨t, rfl, hne, hall⟩
    rw [List.drop_left]
    exact ⟨⟨⟨t, rfl⟩, hne⟩, hall⟩

/-- Claim C9: `make_models` yields the box2d model dictionary (with exactly
the keys action_model, observation_model, state_model, history_model,
qh_model, qhs_model) iff the environment id fully matches `CartPole-v\d+`,
`Acrobot-v\d+` or `LunarLander-v\d+`, and raises `NotImplementedError`
(`none`) for every other id. -/
theorem c9_make_models_box2d (s : List Char) :
    ((make_models s).isSome ↔
      (FullmatchDigits cartpolePre s
        ∨ FullmatchDigits acrobotPre s
        ∨ FullmatchDigits lunarlanderPre s))
    ∧ (make_models s = some box2d_model_keys ∨ make_models s = none) := by
  have hiff : (matchesEnvId cartpolePre s
        || matchesEnvId acrobotPre s
        || matchesEnvId lunarlanderPre s) = true
      ↔ (FullmatchDigits cartpolePre s
        ∨ FullmatchDigits acrobotPre s
        ∨ FullmatchDigits lunarlanderPre s) := by
    simp [Bool.or_eq_true, matchesEnvId_iff, or_assoc]
  by_cases h : (matchesEnvId cartpolePre s
      || matchesEnvId acrobotPre s
      || matchesEnvId lunarlanderPre s) = true
  · refine ⟨?_, Or.inl ?_⟩
    · rw [make_models, if_pos h]
      simp only [Option.isSome_some, true_iff]
      exact hiff.mp h
    · rw [make_models, if_pos h]
  · refine ⟨?_, Or.inr ?_⟩
    · rw [make_models, if_neg h]
      simp only [Option.isSome_none, Bool.false_eq_true, false_iff]
      exact fun hcon => h (hiff.mpr hcon)
    · rw [make_models, if_neg h]

lemma getD_set_ne (L : List α) (i j : Nat) (x d : α) (h : i ≠ j) :
    (L.set i x).getD j d = L.getD j d := by
  rw [List.getD_eq_getElem?_getD, List.getElem?_set_ne h,
    ← List.getD_eq_getElem?_getD]

lemma getD_append_left (L M : List α) (j : Nat) (d : α) (h : j < L.length) :
    (L ++ M).getD j d = L.getD j d := by
  rw [List.getD_eq_getElem?_getD, List.getElem?_append_left h,
    ← List.getD_eq_getElem?_getD]

/-- Claim C10: `get_config()` always returns the module-level singleton
(created on first call, after which further calls change nothing), and
`Config._as_dict()` returns a copy: a fresh dict object, distinct from the
config's own, so that mutating the returned dict leaves every value read
through the `Config` unchanged. -/
theorem c10_config_singleton_and_copy (V : Type) (s : ConfigModule V)
    (hwf : ∀ a, s.config_global = some a → a < s.heap.length) :
    get_config (get_config s).2 = ((get_config s).1, (get_config s).2)
    ∧ (get_config s).2.config_global = some (get_config s).1
    ∧ ∀ k v k',
        (as_dict (get_config s).2 (get_config s).1).1 ≠ (get_config s).1
        ∧ config_get
            (dict_setitem (as_dict (get_config s).2 (get_config s).1).2
              (as_dict (get_config s).2 (get_config s).1).1 k v)
            (get_config s).1 k'
          = config_get (get_config s).2 (get_config s).1 k' := by
  cases hc : s.config_global with
  | some a =>
    have ha : a < s.heap.length := hwf a hc
    simp only [get_config, hc, as_dict]
    refine ⟨trivial, trivial, fun k v k' => ⟨by omega, ?_⟩⟩
    simp only [config_get, dict_setitem, readDict]
    rw [getD_set_ne _ _ _ _ _ (by omega), getD_append_left _ _ _ _ ha]
  | none =>
    simp only [get_config, hc, as_dict]
    refine ⟨trivial, trivial, fun k v k' => ⟨by simp, ?_⟩⟩
    simp only [config_get, dict_setitem, readDict]
    rw [getD_set_ne _ _ _ _ _ (by simp),
      getD_append_left _ _ _ _ (by simp)]

/-- Witness for C10 at the initial module state (no singleton yet). -/
theorem c10_config_singleton_and_copy_witness :
    get_config (get_config (ConfigModule.mk ([] : List (Dict Int)) none)).2
      = ((get_config (ConfigModule.mk ([] : List (Dict Int)) none)).1,
          (get_config (ConfigModule.mk ([] : List (Dict Int)) none)).2)
    ∧ (get_config (ConfigModule.mk ([] : List (Dict Int)) none)).2.config_global
      = some (get_config (ConfigModule.mk ([] : List (Dict Int)) none)).1
    ∧ ∀ k v k',
        (as_dict (get_config (ConfigModule.mk ([] : List (Dict Int)) none)).2
            (get_config (ConfigModule.mk ([] : List (Dict Int)) none)).1).1
          ≠ (get_config (ConfigModule.mk ([] : List (Dict Int)) none)).1
        ∧ config_get
            (dict_setitem
              (as_dict (get_config (ConfigModule.mk ([] : List (Dict Int)) none)).2
                (get_config (ConfigModule.mk ([] : List (Dict Int)) none)).1).2
              (as_dict (get_config (ConfigModule.mk ([] : List (Dict Int)) none)).2
                (get_config (ConfigModule.mk ([] : List (Dict Int)) none)).1).1
              k v)
            (get_config (ConfigModule.mk ([] : List (Dict Int)) none)).1 k'
          = config_get (get_config (ConfigModule.mk ([] : List (Dict Int)) none)).2
              (get_config (ConfigModule.mk ([] : List (Dict Int)) none)).1 k' :=
  c10_config_singleton_and_copy Int (ConfigModule.mk [] none)
    (fun a h => by simp at h)

end AsymRlpo
